import Mathlib

/-!
Shallow embedding of the canary release controller in
`scripts/automate_release.py` (the staged, guarded, reversible blue/green
traffic-shift pipeline), together with proofs of the claimed properties.

Modelling conventions:
* Machine floats in the source (`float(parts[1])`, thresholds such as `0.35`)
  are modelled as exact decimals `Dec` (integer mantissa over a power of ten);
  every comparison the claims exercise is an exact decimal comparison on which
  `float` and `Dec` agree, and `Dec.toRat` gives the rational value.
* External effects (subprocess invocations, HTTP requests, sleeps, file
  writes) are recorded as events in a trace; HTTP responses and command exit
  statuses are supplied by an environment record.
* `REPO_ROOT`-absolute paths are represented by their repo-relative suffix.
-/

/-- Release-attempt status values, as in the `status` field of the release
ledger entry: `pending` initially, and the terminal values written by `main`. -/
inductive Status
  | pending
  | deployed
  | aborted
  | failed
  deriving DecidableEq, Repr

/-- One record of the release ledger (`release_entry` in `main`).  The
wall-clock `timestamp` field is omitted; `release_id` is passed in as data. -/
structure LedgerEntry where
  release_id : String
  image : Option String
  status : Status
  reason : Option String
  metrics_file : String
  deriving DecidableEq, Repr

/-- An exact decimal number `num / 10 ^ exp`: the model of the float values
this controller handles (metric samples and thresholds, sleep durations).
All of them are decimal literals, on which IEEE comparison and exact decimal
comparison agree, and `Dec` comparison is plain integer arithmetic the
kernel can evaluate. -/
structure Dec where
  num : ℤ
  exp : ℕ
  deriving DecidableEq, Repr

/-- The rational value of a `Dec`. -/
def Dec.toRat (d : Dec) : ℚ :=
  (d.num : ℚ) / (10 : ℚ) ^ d.exp

/-- Decimal comparison `a ≤ b` by cross-multiplication (denominators are
positive powers of ten). -/
def decLE (a b : Dec) : Bool :=
  decide (a.num * (10 : ℤ) ^ b.exp ≤ b.num * (10 : ℤ) ^ a.exp)

/-- Observable events of a controller run.  `subproc` is an external command
actually executed (dry-run skips emit nothing); `revertTraffic c` is the
`switch-traffic.sh` invocation on the guard-failure branch of
`perform_staged_shift` (same external command as
`subproc ["bash", "scripts/switch-traffic.sh", c]`, tagged by call site);
`guardEval p` marks a guard evaluation for phase `p`; `httpGet` a probe or
metrics request; `sleepSecs` a real `time.sleep`; `fileWrite` a file
creation or append. -/
inductive Ev
  | subproc (cmd : List String)
  | revertTraffic (color : String)
  | guardEval (phase : String)
  | httpGet (url : String)
  | sleepSecs (secs : Dec)
  | fileWrite (path : String)
  deriving DecidableEq, Repr

/-- Exceptions that can leave `main`: `calledProcessError` from a checked
`run_cmd` or from `git rev-parse` in `write_provenance`;
`systemExit` raised on the abort path (a `BaseException`, not an
`Exception`, so the top-level `except Exception` does not catch it);
`otherError` any other `Exception` (I/O failures in `write_provenance`). -/
inductive PyExc
  | calledProcessError (cmd : List String)
  | systemExit (msg : String)
  | otherError (msg : String)
  deriving DecidableEq, Repr

/-- Ways `write_provenance` can fail: its `subprocess.check_output` git call
raising `CalledProcessError`, or any other `Exception` (file I/O).  Both are
`Exception`s, so they are caught by the top-level handlers of `main`. -/
inductive ProvFailure
  | procError (cmd : List String)
  | ioError (msg : String)
  deriving DecidableEq, Repr

/-- Split a character list at every character satisfying `p` (the separator
characters are dropped; empty groups are kept).  Structural recursion, so it
reduces inside the kernel — the splitting functions of the `String` library
use well-founded recursion on byte positions and do not. -/
def splitCharsWhen (p : Char → Bool) : List Char → List (List Char)
  | [] => [[]]
  | c :: rest =>
    match splitCharsWhen p rest with
    | [] => [[]]
    | g :: gs => if p c then [] :: g :: gs else (c :: g) :: gs

/-- Whether character list `h` starts with `pre` (models Python
`str.startswith`). -/
def charsStartWith : List Char → List Char → Bool
  | _, [] => true
  | [], _ :: _ => false
  | c :: cs, p :: ps => c = p && charsStartWith cs ps

/-- Whether `n` occurs as a contiguous sublist of `h` (substring test). -/
def charsContains : List Char → List Char → Bool
  | [], n => n.isEmpty
  | c :: t, n => charsStartWith (c :: t) n || charsContains t n

/-- Python `line.startswith(pre)`. -/
def pyStartsWith (s pre : String) : Bool :=
  charsStartWith s.data pre.data

/-- Python `str.split()` with no separator: split on runs of whitespace,
dropping empty tokens. -/
def pySplit (s : String) : List String :=
  ((splitCharsWhen (fun c => c.isWhitespace) s.data).map String.mk).filter
    (fun t => t ≠ "")

/-- Python `str.splitlines()` for newline-delimited bodies, modelled as a
split on the newline character.  The extra trailing empty line this yields
for a body ending in a newline is skipped by every consumer exactly as the
source skips nothing (an empty line never matches a metric name and has no
tokens). -/
def pySplitLines (s : String) : List String :=
  (splitCharsWhen (fun c => c = '\x0a') s.data).map String.mk

/-- Accumulate a list of decimal digit characters into a number; `none` if a
non-digit appears.  (An empty list yields `some 0`; callers rule it out.) -/
def digitsToNat (cs : List Char) : Option Nat :=
  cs.foldl
    (fun acc c =>
      match acc with
      | some a => if c.isDigit then some (a * 10 + (c.toNat - 48)) else none
      | none => none)
    (some 0)

/-- CPython `float()` restricted to plain sign+decimal-digit literals
(optional `-`/`+`, digits, optional single `.`): returns `none` exactly when
`float()` would raise `ValueError` on such inputs.  Scientific notation,
`inf` and `nan` are not modelled. -/
def parseDecimal (s : String) : Option Dec :=
  let cs := s.toList
  let sg : ℤ := match cs with | '-' :: _ => -1 | _ => 1
  let cs2 := match cs with | '-' :: r => r | '+' :: r => r | _ => cs
  match cs2.span (fun c => c ≠ '.') with
  | (ip, []) =>
      if ip.isEmpty then none
      else (digitsToNat ip).map (fun n => { num := sg * (n : ℤ), exp := 0 })
  | (ip, _ :: fp) =>
      if fp.contains '.' then none
      else if ip.isEmpty && fp.isEmpty then none
      else
        match digitsToNat ip, digitsToNat fp with
        | some a, some b =>
            some { num := sg * ((a : ℤ) * (10 : ℤ) ^ fp.length + (b : ℤ)),
                   exp := fp.length }
        | _, _ => none

/-- The line-scanning loop of `check_online_metric`: for each line, if
`line.startswith(metric_name)` and the line has at least two
whitespace-delimited tokens, parse the second token — a parse failure raises
`ValueError`, caught by the `except Exception` of the function (result `False`);
otherwise compare against the minimum.  A matching line with fewer than two
tokens is skipped and scanning continues; no matching line yields `False`. -/
def scanMetricLines (metricName : String) (m : Dec) : List String → Bool
  | [] => false
  | line :: rest =>
    if pyStartsWith line metricName then
      let parts := pySplit line
      if 2 ≤ parts.length then
        match parseDecimal (parts.getD 1 "") with
        | none => false
        | some v => decLE m v
      else scanMetricLines metricName m rest
    else scanMetricLines metricName m rest

/-- `check_online_metric(url, metric_name, minimum)`:  returns `True` when
`not url or minimum is None` (metric checking not configured); otherwise the
HTTP response `resp` (`none` models a `RequestException` or a non-2xx status
raised by `raise_for_status`, both caught → `False`) is scanned by
`scanMetricLines` over its lines.  Python `splitlines` is modelled by
splitting on `"\n"`; the extra trailing empty line this produces is skipped
by the scanner exactly as in the source. -/
def check_online_metric (url : String) (metricName : String)
    (minimum : Option Dec) (resp : Option String) : Bool :=
  match minimum with
  | none => true
  | some m =>
    if url = "" then true
    else
      match resp with
      | none => false
      | some body => scanMetricLines metricName m (pySplitLines body)

/-- The retry loop of `wait_for_health`: `fuel` remaining attempts, `i` the
index of the next probe.  `probe i = some c` models an HTTP response with
status `c`; `none` models a `RequestException`.  Each attempt emits an
`httpGet` event; a non-200 attempt is followed by `time.sleep(interval)`. -/
def healthLoop (url : String) (probe : Nat → Option Nat) (interval : Dec) :
    Nat → Nat → Bool × List Ev
  | _, 0 => (false, [])
  | i, fuel + 1 =>
    if probe i = some 200 then (true, [.httpGet url])
    else
      let r := healthLoop url probe interval (i + 1) fuel
      (r.1, .httpGet url :: .sleepSecs interval :: r.2)

/-- `wait_for_health(url, attempts, interval, dry_run)`: in dry-run it
returns `True` immediately with no probes; otherwise it polls up to
`attempts` times, returning on the first HTTP 200 and `False` on
exhaustion. -/
def wait_for_health (url : String) (probe : Nat → Option Nat)
    (attempts : Nat) (interval : Dec) (dryRun : Bool) : Bool × List Ev :=
  if dryRun then (true, []) else healthLoop url probe interval 0 attempts

/-- Number of HTTP probe calls recorded in a trace. -/
def probeCount (evs : List Ev) : Nat :=
  evs.countP (fun e => match e with | .httpGet _ => true | _ => false)

/-- The argparse configuration surface of `main`.  Fields that `main` only
ever re-stringifies into command lines (`test_size`, `k`, thresholds, …) are
kept as the strings they are rendered to; numerically used fields
(`health_attempts`, `health_interval`, `shift_wait`, `online_metric_min`)
are typed. -/
structure Args where
  execute : Bool
  mode : String
  skip_ingest : Bool
  kafka_server : String
  team_number : String
  test_size : String
  k : String
  threshold : String
  rmse_max : String
  precision_min : String
  recall_min : String
  hit_rate_min : String
  mrr_min : String
  health_path : String
  health_attempts : Nat
  health_interval : Dec
  staged_shift : Bool
  shift_wait : Nat
  lb_url : String
  online_metrics_url : String
  online_metric_name : String
  online_metric_min : Option Dec
  stop_old_on_success : Bool
  release_log_path : String
  metrics_out_path : String

/-- The argparse defaults of `main` (paths repo-relative). -/
def defaultArgs : Args where
  execute := false
  mode := "stream"
  skip_ingest := false
  kafka_server := "fall2025-comp585.cs.mcgill.ca:9092"
  team_number := "2"
  test_size := "0.2"
  k := "20"
  threshold := "3.5"
  rmse_max := "1.0"
  precision_min := "0.05"
  recall_min := "0.02"
  hit_rate_min := "0.1"
  mrr_min := "0.05"
  health_path := "/health"
  health_attempts := 10
  health_interval := { num := 6, exp := 0 }
  staged_shift := true
  shift_wait := 3600
  lb_url := "http://127.0.0.1:8082"
  online_metrics_url := "http://127.0.0.1:9108/metrics"
  online_metric_name := "online_positive_rating_rate"
  online_metric_min := some { num := 35, exp := 2 }
  stop_old_on_success := true
  release_log_path := "reports/release_history.jsonl"
  metrics_out_path := "reports/latest_metrics.json"

/-- The HTTP environment one guard evaluation sees: `health k` is the
response to the `k`-th health probe of that evaluation, `metric` the
response body of the metrics endpoint (if any). -/
structure GuardEnv where
  health : Nat → Option Nat
  metric : Option String

/-- The inner `guard(stage)` closure of `perform_staged_shift`: poll
`wait_for_health` against `lb_url + health_path` (with `dry_run=False`);
on failure return `False`; otherwise, when `args.online_metrics_url` is
truthy and `args.online_metric_min is not None`, fetch and check the online
metric (one more HTTP request); otherwise `True`. -/
def guardRun (args : Args) (env : GuardEnv) : Bool × List Ev :=
  let h := wait_for_health (args.lb_url ++ args.health_path) env.health
    args.health_attempts args.health_interval false
  if h.1 = false then (false, h.2)
  else if args.online_metrics_url ≠ "" ∧ args.online_metric_min ≠ none then
    (check_online_metric args.online_metrics_url args.online_metric_name
        args.online_metric_min env.metric,
     h.2 ++ [.httpGet args.online_metrics_url])
  else (true, h.2)

/-- The verdict of the guard alone. -/
def guardOk (args : Args) (env : GuardEnv) : Bool :=
  (guardRun args env).1

/-- The fixed `phases` list of `perform_staged_shift`:
`(name, color, description)`, with `color = None` for the equal phase. -/
def phaseList (target previous : String) : List (String × Option String × String) :=
  [("old-primary", some previous, "Keeping previous color primary (new = 25%)"),
   ("equal", none, "Balancing traffic 50/50"),
   ("new-primary", some target, "Making new color primary (about 75%)"),
   ("final", some target, "Final check before optional 100% cutover")]

/-- The external commands a phase action issues after its guard passes:
the equal phase installs the equal-weight proxy configuration (four
fire-and-forget docker commands); every other phase runs
`switch-traffic.sh` with its color. -/
def phaseAction (name : String) (color : Option String) : List Ev :=
  if name = "equal" then
    [.subproc ["docker", "cp", "nginx-equal.conf", "recommender-loadbalancer:/tmp/nginx.conf"],
     .subproc ["docker", "exec", "recommender-loadbalancer", "sh", "-c",
       "cat /tmp/nginx.conf > /etc/nginx/nginx.conf"],
     .subproc ["docker", "exec", "recommender-loadbalancer", "rm", "-f", "/tmp/nginx.conf"],
     .subproc ["docker", "exec", "recommender-loadbalancer", "nginx", "-s", "reload"]]
  else
    [.subproc ["bash", "scripts/switch-traffic.sh", color.getD ""]]

/-- The `for name, color, desc in phases` loop of `perform_staged_shift`:
`i` indexes guard environments in evaluation order.  A failing guard issues
the revert `switch-traffic.sh previous` and returns `False`; a passing
guard runs the phase action, sleeps `shift_wait` seconds, and continues. -/
def shiftLoop (args : Args) (previous : String) (envs : Nat → GuardEnv) :
    Nat → List (String × Option String × String) → List Ev × Bool
  | _, [] => ([], true)
  | i, p :: rest =>
    let g := guardRun args (envs i)
    if g.1 = false then
      (.guardEval p.1 :: g.2 ++ [.revertTraffic previous], false)
    else
      let r := shiftLoop args previous envs (i + 1) rest
      (.guardEval p.1 :: g.2 ++ phaseAction p.1 p.2.1
         ++ [.sleepSecs { num := (args.shift_wait : ℤ), exp := 0 }] ++ r.1, r.2)

/-- `perform_staged_shift(target_color, previous_color, args, dry_run)`:
in dry-run it prints and returns `True` immediately; otherwise it runs the
four-phase loop, and on success optionally stops the container of the
previous color (`--stop-old-on-success`). -/
def perform_staged_shift (target previous : String) (args : Args)
    (dryRun : Bool) (envs : Nat → GuardEnv) : List Ev × Bool :=
  if dryRun then ([], true)
  else
    let r := shiftLoop args previous envs 0 (phaseList target previous)
    if r.2 then
      (r.1 ++ (if args.stop_old_on_success then
          [.subproc ["docker", "stop", "recommender-" ++ previous]] else []),
       true)
    else r

/-- The external environment of one `main` invocation: which executed
commands exit nonzero (raising `CalledProcessError` under `check=True`),
whether and how `write_provenance` fails, the per-phase guard HTTP
environments, and the `BG_TARGET_COLOR` environment variable (default
"green"). -/
structure MainEnv where
  cmdFails : List String → Bool
  provenance : Option ProvFailure
  guards : Nat → GuardEnv
  target_color : String

/-- `run_cmd(cmd, dry_run, check=True)` over a list of commands in order:
dry-run prints and skips every command (no event, no exception); otherwise
each command is executed and, since these call sites use `check=True`, a
failing command raises `CalledProcessError` and stops the chain. -/
def runCmds (env : MainEnv) (dry : Bool) : List (List String) → List Ev × Option PyExc
  | [] => ([], none)
  | c :: rest =>
    if dry then runCmds env dry rest
    else if env.cmdFails c then ([.subproc c], some (.calledProcessError c))
    else
      let r := runCmds env dry rest
      (.subproc c :: r.1, r.2)

/-- The Kafka ingestion command built in `main` (`PYTHON_BIN` modelled as
`"python"`, `max_rows` fixed at 100000, `--append` always added since
`append_data` is the constant `True`). -/
def ingestCmd (args : Args) : List String :=
  ["python", "scripts/extract_explicit_ratings.py",
   "--mode", args.mode,
   "--kafka-server", args.kafka_server,
   "--team-number", args.team_number,
   "--output-file", "data/explicit_ratings_from_kafka.csv",
   "--max-rows", "100000",
   "--append"]

/-- The dockerised train/test split command of `main`. -/
def splitCmd (args : Args) : List String :=
  ["docker", "run", "--rm", "-v", "REPO_ROOT:/app", "comp585-recommender:pipeline",
   "python", "scripts/split_train_test_set.py",
   "--csv-path", "data/explicit_ratings_from_kafka.csv",
   "--trainset-output", "data/surprise_trainset.pkl",
   "--testset-output", "data/surprise_testset.pkl",
   "--test-size", args.test_size]

/-- The dockerised SVD training command of `main`. -/
def trainCmd : List String :=
  ["docker", "run", "--rm", "-v", "REPO_ROOT:/app", "comp585-recommender:pipeline",
   "python", "scripts/train_surprise_models.py",
   "--model", "svd",
   "--output_model_path", "models/svd_model.pkl",
   "--trainset-path", "data/surprise_trainset.pkl",
   "--testset-path", "data/surprise_testset.pkl"]

/-- The dockerised offline-evaluation command of `main`. -/
def evalCmd (args : Args) : List String :=
  ["docker", "run", "--rm", "-v", "REPO_ROOT:/app", "comp585-recommender:pipeline",
   "python", "scripts/offline_evaluation.py",
   "--model-path", "models/svd_model.pkl",
   "--trainset-path", "data/surprise_trainset.pkl",
   "--testset-path", "data/surprise_testset.pkl",
   "--k", args.k,
   "--threshold", args.threshold,
   "--metrics-out", args.metrics_out_path,
   "--rmse-max", args.rmse_max,
   "--precision-min", args.precision_min,
   "--recall-min", args.recall_min,
   "--hit-rate-min", args.hit_rate_min,
   "--mrr-min", args.mrr_min]

/-- The blue/green image build command of `main`. -/
def buildCmd : List String :=
  ["docker", "compose", "build", "recommender-blue", "recommender-green"]

/-- The blue/green deploy script invocation of `main`. -/
def deployCmd (target releaseId : String) : List String :=
  ["bash", "scripts/deploy-blue-green.sh", target, releaseId]

/-- A `switch-traffic.sh` invocation as built in `main`. -/
def switchCmd (color : String) : List String :=
  ["bash", "scripts/switch-traffic.sh", color]

/-- `write_provenance(release_id, ratings_csv, repo_root)`: not gated on
dry-run.  On success it runs `git rev-parse HEAD` via
`subprocess.check_output` and writes `<release_id>_provenance.json`; on
failure it raises the `Exception` given by the environment (effects already
performed before the raise are elided). -/
def write_provenance (releaseId : String) (env : MainEnv) : List Ev × Option PyExc :=
  match env.provenance with
  | some (.procError cmd) => ([], some (.calledProcessError cmd))
  | some (.ioError msg) => ([], some (.otherError msg))
  | none =>
      ([.subproc ["git", "rev-parse", "HEAD"],
        .fileWrite ("models/" ++ releaseId ++ "_provenance.json")], none)

/-- `append_release_log(log_path, entry)`: one line-oriented append of the
record to the ledger file (creating it if absent). -/
def append_release_log (logPath : String) (ledger : List LedgerEntry)
    (entry : LedgerEntry) : List LedgerEntry × List Ev :=
  (ledger ++ [entry], [.fileWrite logPath])

/-- Result of the `try:` block of `main`: accumulated events, ledger
appends performed inside the block, the `release_entry` value at exit, and
the exception (if any) leaving the block. -/
structure TryResult where
  events : List Ev
  ledger : List LedgerEntry
  entry : LedgerEntry
  exc : Option PyExc
  deriving Repr

/-- The `try:` block of `main`: ingestion (unless `--skip-ingest`), split,
train, provenance (unconditionally), offline evaluation, image build,
blue/green deploy, initial traffic switch, then the staged shift — whose
failure appends an `aborted` record and raises `SystemExit` — and finally
the `deployed` append. -/
def mainTry (args : Args) (env : MainEnv) (releaseId : String)
    (entry0 : LedgerEntry) : TryResult :=
  let dry := !args.execute
  let pre := (if args.skip_ingest then [] else [ingestCmd args])
    ++ [splitCmd args, trainCmd]
  let r1 := runCmds env dry pre
  match r1.2 with
  | some e => ⟨r1.1, [], entry0, some e⟩
  | none =>
    let r2 := write_provenance releaseId env
    match r2.2 with
    | some e => ⟨r1.1 ++ r2.1, [], entry0, some e⟩
    | none =>
      let r3 := runCmds env dry [evalCmd args]
      match r3.2 with
      | some e => ⟨r1.1 ++ r2.1 ++ r3.1, [], entry0, some e⟩
      | none =>
        let entry1 := { entry0 with image := some ("comp585-recommender:" ++ releaseId) }
        let target := env.target_color
        let previous := if target = "green" then "blue" else "green"
        let initial := if args.staged_shift then previous else target
        let r4 := runCmds env dry [buildCmd, deployCmd target releaseId, switchCmd initial]
        let evs4 := r1.1 ++ r2.1 ++ r3.1 ++ r4.1
        match r4.2 with
        | some e => ⟨evs4, [], entry1, some e⟩
        | none =>
          let shift :=
            if args.staged_shift then perform_staged_shift target previous args dry env.guards
            else ([], true)
          if shift.2 = false then
            let entryA :=
              { entry1 with status := .aborted, reason := some "Staged traffic shift failed" }
            let ap := append_release_log args.release_log_path [] entryA
            ⟨evs4 ++ shift.1 ++ ap.2, ap.1, entryA,
             some (.systemExit "Staged traffic shift failed; reverted to previous version.")⟩
          else
            let entryD := { entry1 with status := .deployed }
            let ap := append_release_log args.release_log_path [] entryD
            ⟨evs4 ++ shift.1 ++ ap.2, ap.1, entryD, none⟩

/-- The embedding of `main` (named `mainRun`; a bare `main` is reserved by
Lean for executables) under environment `env` with `release_id = releaseId`:
runs the `try:` block, then the two handlers.  `except CalledProcessError`
appends a `failed` record and re-raises; `except Exception` appends a
`failed` record only when the entry status is not already `aborted` or
`failed`, then re-raises; `SystemExit` is a `BaseException`, matches
neither handler, and propagates as-is.  Returns the final run state and the
propagated exception (`none` = normal return). -/
def mainRun (args : Args) (env : MainEnv) (releaseId : String) :
    (List Ev × List LedgerEntry) × Option PyExc :=
  let entry0 : LedgerEntry :=
    { release_id := releaseId, image := none, status := .pending,
      reason := none, metrics_file := args.metrics_out_path }
  let t := mainTry args env releaseId entry0
  match t.exc with
  | none => ((t.events, t.ledger), none)
  | some (.calledProcessError cmd) =>
      let entryF :=
        { t.entry with status := .failed,
                       reason := some ("Command failed: " ++ String.intercalate " " cmd) }
      let ap := append_release_log args.release_log_path t.ledger entryF
      ((t.events ++ ap.2, ap.1), some (.calledProcessError cmd))
  | some (.systemExit msg) => ((t.events, t.ledger), some (.systemExit msg))
  | some (.otherError msg) =>
      if t.entry.status = .aborted ∨ t.entry.status = .failed then
        ((t.events, t.ledger), some (.otherError msg))
      else
        let entryF := { t.entry with status := .failed, reason := some msg }
        let ap := append_release_log args.release_log_path t.ledger entryF
        ((t.events ++ ap.2, ap.1), some (.otherError msg))

/-- The line the scanner of `check_online_metric` settles on: the first line
that passes the Python `line.startswith(metric_name)` test and has at least
two whitespace-delimited tokens. -/
def selectLine (name : String) : List String → Option String
  | [] => none
  | l :: ls =>
    if pyStartsWith l name && decide (2 ≤ (pySplit l).length) then some l
    else selectLine name ls

/-- Modelled from the spec (for comparison with `check_online_metric` in the
refinement claim on line selection): `fetchMetricValue` as the spec words
it — select a line iff its FIRST whitespace-delimited token equals
`metricName` exactly, and parse the second token of that line. -/
def check_online_metric_specTok (url : String) (metricName : String)
    (minimum : Option Dec) (resp : Option String) : Bool :=
  match minimum with
  | none => true
  | some m =>
    if url = "" then true
    else
      match resp with
      | none => false
      | some body =>
        match (pySplitLines body).find?
            (fun l => (pySplit l).headD "" == metricName) with
        | none => false
        | some l =>
          match parseDecimal ((pySplit l).getD 1 "") with
          | none => false
          | some v => decLE m v

/-- Whether a reason string mentions the online metric: it contains the
name of the metric or the word "metric" as a substring. -/
def mentionsMetric (metricName s : String) : Bool :=
  charsContains s.data metricName.data || charsContains s.data "metric".data

/-- Recognise a guard-failure revert event. -/
def isRevertEv : Ev → Bool
  | .revertTraffic _ => true
  | _ => false

/-- Recognise a guard-evaluation event. -/
def isGuardEv : Ev → Bool
  | .guardEval _ => true
  | _ => false

/-- Number of `revertTraffic` calls (guard-failure reverts) in a trace. -/
def revertCount (evs : List Ev) : Nat :=
  evs.countP isRevertEv

/-- Number of guard evaluations in a trace. -/
def guardEvalCount (evs : List Ev) : Nat :=
  evs.countP isGuardEv

/-- The phase names visited by a trace, in order. -/
def phaseVisits (evs : List Ev) : List String :=
  evs.filterMap (fun e => match e with | .guardEval p => some p | _ => none)

/-- Name of the `i`-th phase of the staged shift. -/
def phaseName (target previous : String) (i : Nat) : String :=
  ((phaseList target previous).getD i ("", none, "")).1

/-- The trace produced by the first `i` (all passing) phases of the staged
shift: for each phase, its guard evaluation, its action, and the soak
sleep. -/
def stagePrefix (args : Args) (envs : Nat → GuardEnv) (target previous : String) :
    Nat → List Ev
  | 0 => []
  | j + 1 =>
    stagePrefix args envs target previous j ++
      (.guardEval (phaseName target previous j) ::
        ((guardRun args (envs j)).2 ++
          phaseAction (phaseName target previous j)
            ((phaseList target previous).getD j ("", none, "")).2.1 ++
          [.sleepSecs { num := (args.shift_wait : ℤ), exp := 0 }]))

/-- `defaultArgs` with `--execute` (a real, non-dry run). -/
def execArgs : Args := { defaultArgs with execute := true }

/-- Health-probe responses [500, 500, 200]. -/
def probeFFS : Nat → Option Nat := fun i => if i < 2 then some 500 else some 200

/-- Health-probe responses [500, 500, 500, …]. -/
def probeFFF : Nat → Option Nat := fun _ => some 500

/-- A guard environment in which everything is healthy: probes answer 200
and the online metric reads 0.42 (above the 0.35 default threshold). -/
def healthyGuard : GuardEnv where
  health := fun _ => some 200
  metric := some "online_positive_rating_rate 0.42 1700000000000\n"

/-- A guard environment in which the service is healthy but the online
metric reads 0.20 (below the 0.35 default threshold). -/
def lowMetricGuard : GuardEnv where
  health := fun _ => some 200
  metric := some "online_positive_rating_rate 0.20\n"

/-- An external environment in which every command succeeds and every guard
passes. -/
def allPassEnv : MainEnv where
  cmdFails := fun _ => false
  provenance := none
  guards := fun _ => healthyGuard
  target_color := "green"

/-- An external environment for the end-to-end abort scenario: commands
succeed, the guard passes at `old-primary` (metric 0.42) and fails at
`equal` because the metric reads 0.20 < 0.35. -/
def equalFailEnv : MainEnv where
  cmdFails := fun _ => false
  provenance := none
  guards := fun i => if i = 0 then healthyGuard else lowMetricGuard
  target_color := "green"

lemma probeCount_nil : probeCount [] = 0 := rfl

lemma probeCount_cons (e : Ev) (l : List Ev) :
    probeCount (e :: l) =
      probeCount l + (match e with | .httpGet _ => 1 | _ => 0) := by
  cases e <;> simp [probeCount, List.countP_cons]

lemma healthLoop_success (url : String) (probe : Nat → Option Nat) (interval : Dec) :
    ∀ (fuel k start : Nat), k < fuel →
      (∀ j, j < k → probe (start + j) ≠ some 200) →
      probe (start + k) = some 200 →
      (healthLoop url probe interval start fuel).1 = true ∧
        probeCount (healthLoop url probe interval start fuel).2 = k + 1 := by
  intro fuel
  induction fuel with
  | zero => intro k start hk; omega
  | succ n ih =>
    intro k start hk hmiss hhit
    cases k with
    | zero =>
      have h0 : probe start = some 200 := by simpa using hhit
      simp [healthLoop, h0, probeCount]
    | succ k =>
      have h0 : probe start ≠ some 200 := by
        have := hmiss 0 (Nat.succ_pos k)
        simpa using this
      have ih2 := ih k (start + 1) (by omega)
        (fun j hj => by
          have := hmiss (j + 1) (by omega)
          simpa [Nat.add_assoc, Nat.add_comm 1 j] using this)
        (by
          have : start + 1 + k = start + (k + 1) := by omega
          rw [this]; exact hhit)
      simp only [healthLoop, h0, if_neg, ite_false]
      refine ⟨by simpa using ih2.1, ?_⟩
      simp [probeCount_cons, ih2.2]

lemma healthLoop_exhaust (url : String) (probe : Nat → Option Nat) (interval : Dec) :
    ∀ (fuel start : Nat),
      (∀ j, j < fuel → probe (start + j) ≠ some 200) →
      (healthLoop url probe interval start fuel).1 = false ∧
        probeCount (healthLoop url probe interval start fuel).2 = fuel := by
  intro fuel
  induction fuel with
  | zero => intro start _; simp [healthLoop, probeCount]
  | succ n ih =>
    intro start hmiss
    have h0 : probe start ≠ some 200 := by
      have := hmiss 0 (Nat.succ_pos n)
      simpa using this
    have ih2 := ih (start + 1)
      (fun j hj => by
        have := hmiss (j + 1) (by omega)
        simpa [Nat.add_assoc, Nat.add_comm 1 j] using this)
    simp only [healthLoop, h0, if_neg, ite_false]
    refine ⟨by simpa using ih2.1, ?_⟩
    simp [probeCount_cons, ih2.2]

/-- Claim C8: the health poll with `attempts = n` returns `true` after
exactly `k + 1` probe calls when the probe at (0-based) index `k` is the
first HTTP 200 response, and returns `false` after exactly `n` probe calls
when no response among the `n` attempts is HTTP 200. -/
theorem health_poll_first_success_and_exhaustion :
    (∀ (url : String) (probe : Nat → Option Nat) (interval : Dec) (n k : Nat),
      k < n → (∀ j, j < k → probe j ≠ some 200) → probe k = some 200 →
      (wait_for_health url probe n interval false).1 = true ∧
        probeCount (wait_for_health url probe n interval false).2 = k + 1) ∧
    (∀ (url : String) (probe : Nat → Option Nat) (interval : Dec) (n : Nat),
      (∀ j, j < n → probe j ≠ some 200) →
      (wait_for_health url probe n interval false).1 = false ∧
        probeCount (wait_for_health url probe n interval false).2 = n) := by
  constructor
  · intro url probe interval n k hk hmiss hhit
    have := healthLoop_success url probe interval n k 0 hk
      (fun j hj => by simpa using hmiss j hj) (by simpa using hhit)
    simpa [wait_for_health] using this
  · intro url probe interval n hmiss
    have := healthLoop_exhaust url probe interval n 0
      (fun j hj => by simpa using hmiss j hj)
    simpa [wait_for_health] using this

/-- Witness for C8: with `healthAttempts = 3`, `healthInterval = 0`,
responses [500, 500, 200] yield `true` after exactly 3 probe calls and
responses [500, 500, 500] yield `false` after exactly 3 probe calls. -/
theorem health_poll_first_success_and_exhaustion_instance :
    (wait_for_health "http://u" probeFFS 3 { num := 0, exp := 0 } false).1 = true ∧
      probeCount (wait_for_health "http://u" probeFFS 3 { num := 0, exp := 0 } false).2 = 3 ∧
      (wait_for_health "http://u" probeFFF 3 { num := 0, exp := 0 } false).1 = false ∧
      probeCount (wait_for_health "http://u" probeFFF 3 { num := 0, exp := 0 } false).2 = 3 := by
  have h1 := health_poll_first_success_and_exhaustion.1 "http://u" probeFFS { num := 0, exp := 0 } 3 2
    (by decide) (by decide) (by decide)
  have h2 := health_poll_first_success_and_exhaustion.2 "http://u" probeFFF { num := 0, exp := 0 } 3
    (by decide)
  exact ⟨h1.1, h1.2, h2.1, h2.2⟩

lemma perform_staged_shift_dry (target previous : String) (args : Args)
    (envs : Nat → GuardEnv) :
    perform_staged_shift target previous args true envs = ([], true) := by
  simp [perform_staged_shift]

/-- Claim C5 counterexample: in dry-run mode the staged shift skips the
phase loop entirely — the dry-run trace visits no phase at all, whereas the
claim requires it to visit the four phases old-primary, equal, new-primary,
final in order (as the corresponding real run does). -/
theorem dry_run_shift_skips_phases_cx :
    phaseVisits (perform_staged_shift "green" "blue" execArgs true allPassEnv.guards).1 = [] ∧
      phaseVisits (perform_staged_shift "green" "blue" execArgs false allPassEnv.guards).1 =
        ["old-primary", "equal", "new-primary", "final"] ∧
      ([] : List String) ≠ ["old-primary", "equal", "new-primary", "final"] := by
  refine ⟨rfl, ?_, by decide⟩
  decide

/-- Claim C5 (amended): a dry-run invocation of `perform_staged_shift` does
NOT exercise the phase loop — it returns the success sentinel immediately
with an empty trace (no phase visits, no guard evaluations, no sleeps),
regardless of configuration or environment. -/
theorem dry_run_shift_returns_immediately (target previous : String)
    (args : Args) (envs : Nat → GuardEnv) :
    perform_staged_shift target previous args true envs = ([], true) :=
  perform_staged_shift_dry target previous args envs

lemma decLE_toRat (a b : Dec) : decLE a b = true ↔ a.toRat ≤ b.toRat := by
  simp only [decLE, Dec.toRat, decide_eq_true_eq]
  rw [div_le_div_iff₀ (by positivity) (by positivity)]
  constructor <;> intro h <;> exact_mod_cast h

lemma scan_eq_select (name : String) (m : Dec) :
    ∀ lines : List String,
      scanMetricLines name m lines =
        (match selectLine name lines with
         | none => false
         | some l =>
           match parseDecimal ((pySplit l).getD 1 "") with
           | none => false
           | some v => decLE m v) := by
  intro lines
  induction lines with
  | nil => rfl
  | cons line rest ih =>
    by_cases h1 : pyStartsWith line name = true
    · by_cases h2 : 2 ≤ (pySplit line).length
      · simp [scanMetricLines, selectLine, h1, h2]
      · simp [scanMetricLines, selectLine, h1, h2, ih]
    · simp [scanMetricLines, selectLine, h1, ih]

/-- Claim C6 counterexample: with metric name "up", minimum 1, and body
"uptime 5\nup 0", `check_online_metric` selects the line "uptime 5" — whose
first token merely has "up" as a proper prefix — and returns `true`
(5 ≥ 1), while the claimed exact-first-token selection
(`check_online_metric_specTok`) selects "up 0" and returns `false`
(0 < 1).  The claim that a proper-prefix first token is not a match is
therefore false of the code. -/
theorem metric_line_prefix_match_cx :
    check_online_metric "http://m" "up" (some { num := 1, exp := 0 })
        (some "uptime 5\nup 0") = true ∧
      check_online_metric_specTok "http://m" "up" (some { num := 1, exp := 0 })
        (some "uptime 5\nup 0") = false := by
  exact ⟨by decide, by decide⟩

/-- Claim C6 (amended): `check_online_metric` selects a line for parsing iff
it is the first line of the body that passes the Python test
`line.startswith(metricName)` — a string-prefix comparison, so a line
whose first token has `metricName` as a proper prefix also matches — and
has at least two whitespace-delimited tokens; it parses the second token of
that line as the decimal value of the metric and compares it to the
minimum. -/
theorem metric_line_selection_by_string_prefix
    (url name body : String) (m : Dec) (hurl : url ≠ "") :
    check_online_metric url name (some m) (some body) =
      (match selectLine name (pySplitLines body) with
       | none => false
       | some l =>
         match parseDecimal ((pySplit l).getD 1 "") with
         | none => false
         | some v => decLE m v) := by
  simp only [check_online_metric, if_neg hurl]
  exact scan_eq_select name m (pySplitLines body)

/-- Witness for C6 (amended), at the proper-prefix body: the result
coincides with first-startswith-line selection. -/
theorem metric_line_selection_by_string_prefix_instance :
    check_online_metric "http://m" "up" (some { num := 1, exp := 0 })
        (some "uptime 5\nup 0") =
      (match selectLine "up" (pySplitLines "uptime 5\nup 0") with
       | none => false
       | some l =>
         match parseDecimal ((pySplit l).getD 1 "") with
         | none => false
         | some v => decLE { num := 1, exp := 0 } v) :=
  metric_line_selection_by_string_prefix "http://m" "up" "uptime 5\nup 0"
    { num := 1, exp := 0 } (by decide)

/-- Claim C7: with a metric URL and threshold configured, the metric check
fails (fail-closed) exactly when the endpoint is unreachable, no line is
selected, the selected value token is unparsable, or the parsed value is
below the threshold; with the URL empty or the threshold `None`, the check
is skipped and treated as satisfied. -/
theorem metric_guard_fail_closed :
    (∀ (name : String) (minimum : Option Dec) (resp : Option String),
        check_online_metric "" name minimum resp = true) ∧
    (∀ (url name : String) (resp : Option String),
        check_online_metric url name none resp = true) ∧
    (∀ (url name : String) (m : Dec), url ≠ "" →
        check_online_metric url name (some m) none = false) ∧
    (∀ (url name body : String) (m : Dec), url ≠ "" →
        selectLine name (pySplitLines body) = none →
        check_online_metric url name (some m) (some body) = false) ∧
    (∀ (url name body l : String) (m : Dec), url ≠ "" →
        selectLine name (pySplitLines body) = some l →
        parseDecimal ((pySplit l).getD 1 "") = none →
        check_online_metric url name (some m) (some body) = false) ∧
    (∀ (url name body l : String) (m v : Dec), url ≠ "" →
        selectLine name (pySplitLines body) = some l →
        parseDecimal ((pySplit l).getD 1 "") = some v →
        (check_online_metric url name (some m) (some body) = false ↔
          v.toRat < m.toRat)) := by
  refine ⟨?_, ?_, ?_, ?_, ?_, ?_⟩
  · intro name minimum resp
    cases minimum <;> simp [check_online_metric]
  · intro url name resp
    simp [check_online_metric]
  · intro url name m h
    simp [check_online_metric, h]
  · intro url name body m h hsel
    simp [check_online_metric, h, scan_eq_select, hsel]
  · intro url name body l m h hsel hparse
    simp only [check_online_metric, if_neg h, scan_eq_select, hsel]
    rw [hparse]
  · intro url name body l m v h hsel hparse
    simp only [check_online_metric, if_neg h, scan_eq_select, hsel, hparse]
    rw [show (decLE m v = false) ↔ ¬(decLE m v = true) from by simp]
    rw [decLE_toRat]
    exact not_le

/-- Witness for C7: an unreachable endpoint fails the configured check, as
does a body with no matching line; both applied at concrete inputs. -/
theorem metric_guard_fail_closed_instance :
    check_online_metric "http://m" "x" (some { num := 1, exp := 0 }) none = false ∧
      check_online_metric "http://m" "x" (some { num := 1, exp := 0 })
        (some "y 2") = false := by
  constructor
  · exact metric_guard_fail_closed.2.2.1 "http://m" "x"
      { num := 1, exp := 0 } (by decide)
  · exact metric_guard_fail_closed.2.2.2.1 "http://m" "x" "y 2"
      { num := 1, exp := 0 } (by decide) (by decide)

lemma healthLoop_events (url : String) (probe : Nat → Option Nat) (interval : Dec) :
    ∀ (fuel i : Nat), ∀ e ∈ (healthLoop url probe interval i fuel).2,
      (∃ u, e = Ev.httpGet u) ∨ ∃ q, e = Ev.sleepSecs q := by
  intro fuel
  induction fuel with
  | zero => intro i e he; simp [healthLoop] at he
  | succ n ih =>
    intro i e he
    by_cases h : probe i = some 200
    · simp [healthLoop, h] at he
      exact Or.inl ⟨url, he⟩
    · simp [healthLoop, h] at he
      rcases he with he | he | he
      · exact Or.inl ⟨url, he⟩
      · exact Or.inr ⟨interval, he⟩
      · exact ih (i + 1) e he

lemma guardRun_events (args : Args) (env : GuardEnv) :
    ∀ e ∈ (guardRun args env).2,
      (∃ u, e = Ev.httpGet u) ∨ ∃ q, e = Ev.sleepSecs q := by
  intro e he
  simp only [guardRun, wait_for_health, Bool.false_eq_true, if_false, ite_false] at he
  split at he
  · exact healthLoop_events _ _ _ _ _ e he
  · split at he
    · simp only [List.mem_append, List.mem_singleton] at he
      rcases he with he | he
      · exact healthLoop_events _ _ _ _ _ e he
      · exact Or.inl ⟨args.online_metrics_url, he⟩
    · exact healthLoop_events _ _ _ _ _ e he

lemma guardRun_no_guardEv (args : Args) (env : GuardEnv) :
    (guardRun args env).2.countP isGuardEv = 0 := by
  rw [List.countP_eq_zero]
  intro e he
  rcases guardRun_events args env e he with ⟨u, rfl⟩ | ⟨q, rfl⟩ <;> simp [isGuardEv]

lemma guardRun_no_revertEv (args : Args) (env : GuardEnv) :
    (guardRun args env).2.countP isRevertEv = 0 := by
  rw [List.countP_eq_zero]
  intro e he
  rcases guardRun_events args env e he with ⟨u, rfl⟩ | ⟨q, rfl⟩ <;> simp [isRevertEv]

lemma phaseAction_no_guardEv (name : String) (color : Option String) :
    (phaseAction name color).countP isGuardEv = 0 := by
  unfold phaseAction
  split <;> rfl

lemma phaseAction_no_revertEv (name : String) (color : Option String) :
    (phaseAction name color).countP isRevertEv = 0 := by
  unfold phaseAction
  split <;> rfl

lemma stagePrefix_counts (args : Args) (envs : Nat → GuardEnv) (target previous : String) :
    ∀ i, (stagePrefix args envs target previous i).countP isGuardEv = i ∧
      (stagePrefix args envs target previous i).countP isRevertEv = 0 := by
  intro i
  induction i with
  | zero => exact ⟨rfl, rfl⟩
  | succ j ih =>
    constructor
    · simp [stagePrefix, List.countP_append, List.countP_cons, ih.1,
        guardRun_no_guardEv, phaseAction_no_guardEv, isGuardEv]
    · simp [stagePrefix, List.countP_append, List.countP_cons, ih.2,
        guardRun_no_revertEv, phaseAction_no_revertEv, isRevertEv]

lemma shiftLoop_cons_pass (args : Args) (previous : String) (envs : Nat → GuardEnv)
    (i : Nat) (p : String × Option String × String)
    (ps : List (String × Option String × String))
    (h : (guardRun args (envs i)).1 = true) :
    shiftLoop args previous envs i (p :: ps) =
      (.guardEval p.1 :: ((guardRun args (envs i)).2 ++ (phaseAction p.1 p.2.1 ++
        (.sleepSecs { num := (args.shift_wait : ℤ), exp := 0 } ::
          (shiftLoop args previous envs (i + 1) ps).1))),
       (shiftLoop args previous envs (i + 1) ps).2) := by
  simp [shiftLoop, h]

lemma shiftLoop_cons_fail (args : Args) (previous : String) (envs : Nat → GuardEnv)
    (i : Nat) (p : String × Option String × String)
    (ps : List (String × Option String × String))
    (h : (guardRun args (envs i)).1 = false) :
    shiftLoop args previous envs i (p :: ps) =
      (.guardEval p.1 :: ((guardRun args (envs i)).2 ++ [.revertTraffic previous]),
       false) := by
  simp [shiftLoop, h]

/-- Claim C2: if the guard fails at phase `i` of the fixed sequence
(old-primary, equal, new-primary, final) after passing at every earlier
phase, the trace of the staged shift is exactly the passed-phase prefix followed
by the failing guard evaluation and a single `revertTraffic previous`
(the `cutover(previousColor)` revert), the result is the aborted outcome
`false`, phase `i` is evaluated exactly once (no retry), and no later phase
is visited or acted on. -/
theorem guard_failure_halts_and_reverts
    (args : Args) (envs : Nat → GuardEnv) (target previous : String) (i : Nat)
    (hi : i < 4)
    (hpass : ∀ j, j < i → guardOk args (envs j) = true)
    (hfail : guardOk args (envs i) = false) :
    perform_staged_shift target previous args false envs =
      (stagePrefix args envs target previous i ++
        (.guardEval (phaseName target previous i) ::
          ((guardRun args (envs i)).2 ++ [.revertTraffic previous])),
       false) ∧
    guardEvalCount (perform_staged_shift target previous args false envs).1 = i + 1 ∧
    revertCount (perform_staged_shift target previous args false envs).1 = 1 := by
  simp only [guardOk] at hpass hfail
  have hmain : perform_staged_shift target previous args false envs =
      (stagePrefix args envs target previous i ++
        (.guardEval (phaseName target previous i) ::
          ((guardRun args (envs i)).2 ++ [.revertTraffic previous])),
       false) := by
    interval_cases i
    · simp [perform_staged_shift, phaseList, shiftLoop_cons_fail _ _ _ _ _ _ hfail,
        stagePrefix, phaseName]
    · have h0 := hpass 0 (by norm_num)
      simp [perform_staged_shift, phaseList, shiftLoop_cons_pass _ _ _ _ _ _ h0,
        shiftLoop_cons_fail _ _ _ _ _ _ hfail, stagePrefix, phaseName]
    · have h0 := hpass 0 (by norm_num)
      have h1 := hpass 1 (by norm_num)
      simp [perform_staged_shift, phaseList, shiftLoop_cons_pass _ _ _ _ _ _ h0,
        shiftLoop_cons_pass _ _ _ _ _ _ h1,
        shiftLoop_cons_fail _ _ _ _ _ _ hfail, stagePrefix, phaseName]
    · have h0 := hpass 0 (by norm_num)
      have h1 := hpass 1 (by norm_num)
      have h2 := hpass 2 (by norm_num)
      simp [perform_staged_shift, phaseList, shiftLoop_cons_pass _ _ _ _ _ _ h0,
        shiftLoop_cons_pass _ _ _ _ _ _ h1, shiftLoop_cons_pass _ _ _ _ _ _ h2,
        shiftLoop_cons_fail _ _ _ _ _ _ hfail, stagePrefix, phaseName]
  refine ⟨hmain, ?_, ?_⟩
  · rw [hmain]
    simp [guardEvalCount, List.countP_append, List.countP_cons,
      (stagePrefix_counts args envs target previous i).1,
      guardRun_no_guardEv, isGuardEv]
  · rw [hmain]
    simp [revertCount, List.countP_append, List.countP_cons,
      (stagePrefix_counts args envs target previous i).2,
      guardRun_no_revertEv, isRevertEv]

/-- Witness for C2: the concrete scenario in which the guard passes at
old-primary and fails at equal (metric 0.20 < 0.35). -/
theorem guard_failure_halts_and_reverts_instance :
    perform_staged_shift "green" "blue" execArgs false equalFailEnv.guards =
      (stagePrefix execArgs equalFailEnv.guards "green" "blue" 1 ++
        (.guardEval (phaseName "green" "blue" 1) ::
          ((guardRun execArgs (equalFailEnv.guards 1)).2 ++ [.revertTraffic "blue"])),
       false) ∧
    guardEvalCount (perform_staged_shift "green" "blue" execArgs false equalFailEnv.guards).1 = 2 ∧
    revertCount (perform_staged_shift "green" "blue" execArgs false equalFailEnv.guards).1 = 1 := by
  have h := guard_failure_halts_and_reverts execArgs equalFailEnv.guards "green" "blue" 1
    (by norm_num)
    (by
      intro j hj
      interval_cases j
      decide)
    (by decide)
  exact h

/-- Claim C3 counterexample: in a run where every guard passes, the first
four trace events are the old-primary guard evaluation (health probe and
metric fetch) followed immediately by a `switch-traffic.sh blue` subprocess
call — i.e. the old-primary phase, once its guard passes, DOES issue a
traffic command (a cutover to the previous color), contradicting the claim
that it performs no traffic action and no proxy reconfiguration. -/
theorem old_primary_issues_cutover_cx :
    (perform_staged_shift "green" "blue" execArgs false allPassEnv.guards).1.take 4 =
      [.guardEval "old-primary",
       .httpGet "http://127.0.0.1:8082/health",
       .httpGet "http://127.0.0.1:9108/metrics",
       .subproc ["bash", "scripts/switch-traffic.sh", "blue"]] := by
  decide

/-- Claim C3 (amended): when the old-primary guard passes, that phase
action issues `switch-traffic.sh previousColor` — a cutover to the color
that is already primary.  The routing target is therefore unchanged (the
proxy is re-pointed at the current primary), but a traffic command IS
issued; the phase is not actionless. -/
theorem old_primary_action_reaffirms_previous
    (args : Args) (envs : Nat → GuardEnv) (target previous : String)
    (hpass : guardOk args (envs 0) = true) :
    ∃ rest, (perform_staged_shift target previous args false envs).1 =
      .guardEval "old-primary" ::
        ((guardRun args (envs 0)).2 ++
          (.subproc ["bash", "scripts/switch-traffic.sh", previous] :: rest)) := by
  simp only [guardOk] at hpass
  simp only [perform_staged_shift, phaseList]
  rw [shiftLoop_cons_pass _ _ _ _ _ _ hpass]
  by_cases hr : (shiftLoop args previous envs 1
      [("equal", none, "Balancing traffic 50/50"),
       ("new-primary", some target, "Making new color primary (about 75%)"),
       ("final", some target, "Final check before optional 100% cutover")]).2 = true
  · refine ⟨Ev.sleepSecs { num := (args.shift_wait : ℤ), exp := 0 } ::
      ((shiftLoop args previous envs 1
        [("equal", none, "Balancing traffic 50/50"),
         ("new-primary", some target, "Making new color primary (about 75%)"),
         ("final", some target, "Final check before optional 100% cutover")]).1 ++
       (if args.stop_old_on_success then
          [Ev.subproc ["docker", "stop", "recommender-" ++ previous]] else [])), ?_⟩
    simp [hr, phaseAction]
  · refine ⟨Ev.sleepSecs { num := (args.shift_wait : ℤ), exp := 0 } ::
      (shiftLoop args previous envs 1
        [("equal", none, "Balancing traffic 50/50"),
         ("new-primary", some target, "Making new color primary (about 75%)"),
         ("final", some target, "Final check before optional 100% cutover")]).1, ?_⟩
    simp [hr, phaseAction]

/-- Witness for C3 (amended) at the all-guards-pass scenario. -/
theorem old_primary_action_reaffirms_previous_instance :
    ∃ rest, (perform_staged_shift "green" "blue" execArgs false allPassEnv.guards).1 =
      .guardEval "old-primary" ::
        ((guardRun execArgs (allPassEnv.guards 0)).2 ++
          (.subproc ["bash", "scripts/switch-traffic.sh", "blue"] :: rest)) :=
  old_primary_action_reaffirms_previous execArgs allPassEnv.guards "green" "blue"
    (by decide)

lemma runCmds_dry (env : MainEnv) : ∀ l, runCmds env true l = ([], none) := by
  intro l
  induction l with
  | nil => rfl
  | cons c rest ih => simp [runCmds, ih]

lemma runCmds_exc (env : MainEnv) (dry : Bool) : ∀ l,
    (runCmds env dry l).2 = none ∨
      ∃ c, (runCmds env dry l).2 = some (PyExc.calledProcessError c) := by
  intro l
  induction l with
  | nil => exact Or.inl rfl
  | cons c rest ih =>
    cases dry
    · by_cases hf : env.cmdFails c
      · exact Or.inr ⟨c, by simp [runCmds, hf]⟩
      · rcases ih with h | ⟨c2, h⟩
        · exact Or.inl (by simp [runCmds, hf, h])
        · exact Or.inr ⟨c2, by simp [runCmds, hf, h]⟩
    · rcases ih with h | ⟨c2, h⟩
      · exact Or.inl (by simp [runCmds, h])
      · exact Or.inr ⟨c2, by simp [runCmds, h]⟩

lemma runCmds_ok (env : MainEnv) (dry : Bool) (h : ∀ c, env.cmdFails c = false) :
    ∀ l, (runCmds env dry l).2 = none := by
  intro l
  induction l with
  | nil => rfl
  | cons c rest ih => cases dry <;> simp [runCmds, h c, ih]

lemma mainTry_shape (args : Args) (env : MainEnv) (rid : String) (e0 : LedgerEntry) :
    ((mainTry args env rid e0).exc = none ∧
      ∃ x, (mainTry args env rid e0).ledger = [x] ∧ x.status = Status.deployed) ∨
    ((∃ m, (mainTry args env rid e0).exc = some (PyExc.systemExit m)) ∧
      ∃ x, (mainTry args env rid e0).ledger = [x] ∧ x.status = Status.aborted) ∨
    ((mainTry args env rid e0).ledger = [] ∧
      (mainTry args env rid e0).entry.status = e0.status ∧
      ((∃ c, (mainTry args env rid e0).exc = some (PyExc.calledProcessError c)) ∨
        (∃ m, (mainTry args env rid e0).exc = some (PyExc.otherError m)))) := by
  unfold mainTry
  rcases runCmds_exc env (!args.execute)
      ((if args.skip_ingest then [] else [ingestCmd args]) ++ [splitCmd args, trainCmd])
    with h1 | ⟨c1, h1⟩
  swap
  · refine Or.inr (Or.inr ⟨?_, ?_, Or.inl ⟨c1, ?_⟩⟩) <;> simp only [h1]
  rcases hp : env.provenance with _ | pf
  swap
  · cases pf with
    | procError c =>
      refine Or.inr (Or.inr ⟨?_, ?_, Or.inl ⟨c, ?_⟩⟩) <;>
        simp only [h1, write_provenance, hp]
    | ioError m =>
      refine Or.inr (Or.inr ⟨?_, ?_, Or.inr ⟨m, ?_⟩⟩) <;>
        simp only [h1, write_provenance, hp]
  rcases runCmds_exc env (!args.execute) [evalCmd args] with h3 | ⟨c3, h3⟩
  swap
  · refine Or.inr (Or.inr ⟨?_, ?_, Or.inl ⟨c3, ?_⟩⟩) <;>
      simp only [h1, write_provenance, hp, h3]
  rcases runCmds_exc env (!args.execute)
      [buildCmd, deployCmd env.target_color rid,
       switchCmd (if args.staged_shift then
         (if env.target_color = "green" then "blue" else "green")
         else env.target_color)]
    with h4 | ⟨c4, h4⟩
  swap
  · refine Or.inr (Or.inr ⟨?_, ?_, Or.inl ⟨c4, ?_⟩⟩) <;>
      simp only [h1, write_provenance, hp, h3, h4]
  by_cases hsh : ((if args.staged_shift = true then
      perform_staged_shift env.target_color
        (if env.target_color = "green" then "blue" else "green") args (!args.execute)
        env.guards
    else ([], true)).2 = false)
  · refine Or.inr (Or.inl ⟨⟨"Staged traffic shift failed; reverted to previous version.", ?_⟩,
      ⟨{ release_id := e0.release_id, image := some ("comp585-recommender:" ++ rid),
         status := Status.aborted, reason := some "Staged traffic shift failed",
         metrics_file := e0.metrics_file }, ?_, rfl⟩⟩) <;>
      (simp only [h1, write_provenance, hp, h3, h4]
       rw [if_pos hsh]
       try simp [append_release_log])
  · refine Or.inl ⟨?_,
      ⟨{ release_id := e0.release_id, image := some ("comp585-recommender:" ++ rid),
         status := Status.deployed, reason := e0.reason,
         metrics_file := e0.metrics_file }, ?_, rfl⟩⟩ <;>
      (simp only [h1, write_provenance, hp, h3, h4]
       rw [if_neg hsh]
       try simp [append_release_log])

/-- Claim C1: every invocation of the controller appends exactly one
release record to the ledger, and its status is terminal (deployed, aborted
or failed) — never the initial pending status — whether the invocation
returns normally or leaves via an exception recorded by the top-level
handlers. -/
theorem controller_single_terminal_ledger_record
    (args : Args) (env : MainEnv) (rid : String) :
    (mainRun args env rid).1.2.length = 1 ∧
    ∀ x ∈ (mainRun args env rid).1.2,
      x.status = Status.deployed ∨ x.status = Status.aborted ∨
        x.status = Status.failed := by
  have hs := mainTry_shape args env rid
    { release_id := rid, image := none, status := .pending,
      reason := none, metrics_file := args.metrics_out_path }
  unfold mainRun
  rcases hs with ⟨hexc, x, hled, hx⟩ | ⟨⟨m, hexc⟩, x, hled, hx⟩ | ⟨hled, hst, hexc⟩
  · simp only [hexc, hled]
    exact ⟨rfl, by simp [hx]⟩
  · simp only [hexc, hled]
    exact ⟨rfl, by simp [hx]⟩
  · rcases hexc with ⟨c, hexc⟩ | ⟨m, hexc⟩
    · simp only [hexc, hled, append_release_log]
      exact ⟨rfl, by simp⟩
    · have hpend : (mainTry args env rid
          { release_id := rid, image := none, status := .pending,
            reason := none, metrics_file := args.metrics_out_path }).entry.status =
          Status.pending := hst
      simp only [hexc, hpend, hled, append_release_log]
      simp

/-- Claim C10: on the abort path (a real run whose staged shift fails after
the upstream commands succeed), the aborted record is appended inside the
`try:` block and then `SystemExit` is raised; since the top-level handlers
catch only `CalledProcessError` and `Exception` — and the generic handler
skips re-appending for statuses aborted/failed — the `SystemExit`
propagates to the caller with exactly one (aborted) ledger record and a
nonzero process outcome. -/
theorem abort_path_systemexit_single_record
    (args : Args) (env : MainEnv) (rid : String)
    (hex : args.execute = true) (hss : args.staged_shift = true)
    (hcmd : ∀ c, env.cmdFails c = false) (hprov : env.provenance = none)
    (hshift : (perform_staged_shift env.target_color
        (if env.target_color = "green" then "blue" else "green")
        args false env.guards).2 = false) :
    (mainRun args env rid).2 =
      some (PyExc.systemExit
        "Staged traffic shift failed; reverted to previous version.") ∧
    ∃ x, (mainRun args env rid).1.2 = [x] ∧ x.status = Status.aborted ∧
      x.reason = some "Staged traffic shift failed" := by
  have h1 := runCmds_ok env false hcmd
  unfold mainRun mainTry
  simp only [h1, write_provenance, hprov, hex, hss, Bool.not_true, hshift,
    append_release_log, if_true, ite_true]
  refine ⟨?_, ⟨{ release_id := rid, image := some ("comp585-recommender:" ++ rid),
                 status := Status.aborted, reason := some "Staged traffic shift failed",
                 metrics_file := args.metrics_out_path }, ?_, ?_, ?_⟩⟩ <;> simp

/-- Witness for C10: the concrete equal-phase metric-failure scenario. -/
theorem abort_path_systemexit_single_record_instance :
    (mainRun execArgs equalFailEnv "20240101000000").2 =
      some (PyExc.systemExit
        "Staged traffic shift failed; reverted to previous version.") ∧
    ∃ x, (mainRun execArgs equalFailEnv "20240101000000").1.2 = [x] ∧
      x.status = Status.aborted ∧
      x.reason = some "Staged traffic shift failed" :=
  abort_path_systemexit_single_record execArgs equalFailEnv "20240101000000"
    rfl rfl (fun _ => rfl) rfl (by decide)

/-- Claim C9 counterexample: in the end-to-end scenario where the guard
fails at the equal phase because the metric reads 0.20 < 0.35, the single
aborted ledger record carries the fixed reason "Staged traffic shift
failed", which does not mention the metric (neither the metric name nor
the word "metric" occurs in it) — the claim that the reason mentions the
metric-threshold cause is false of the code. -/
theorem equal_abort_reason_generic_cx :
    check_online_metric execArgs.online_metrics_url execArgs.online_metric_name
      execArgs.online_metric_min lowMetricGuard.metric = false ∧
    (mainRun execArgs equalFailEnv "20240101000000").1.2.map LedgerEntry.reason =
      [some "Staged traffic shift failed"] ∧
    mentionsMetric "online_positive_rating_rate" "Staged traffic shift failed" = false := by
  refine ⟨by decide, by decide, by decide⟩

/-- Claim C9 (amended): in the equal-phase metric-failure scenario
(metric 0.20 < threshold 0.35 with target green, previous blue), the ledger
receives exactly one record with status aborted and the fixed reason
"Staged traffic shift failed"; exactly one revert `cutover("blue")` occurs,
and no new-primary or final phase runs (no guard evaluation for them, no
`switch-traffic.sh green` cutover and no equal-phase proxy install). -/
theorem equal_phase_metric_abort_scenario :
    (mainRun execArgs equalFailEnv "20240101000000").2 =
      some (PyExc.systemExit
        "Staged traffic shift failed; reverted to previous version.") ∧
    (mainRun execArgs equalFailEnv "20240101000000").1.2.map
        (fun x => (x.status, x.reason)) =
      [(Status.aborted, some "Staged traffic shift failed")] ∧
    revertCount (mainRun execArgs equalFailEnv "20240101000000").1.1 = 1 ∧
    Ev.revertTraffic "blue" ∈ (mainRun execArgs equalFailEnv "20240101000000").1.1 ∧
    Ev.guardEval "new-primary" ∉ (mainRun execArgs equalFailEnv "20240101000000").1.1 ∧
    Ev.guardEval "final" ∉ (mainRun execArgs equalFailEnv "20240101000000").1.1 ∧
    Ev.subproc ["bash", "scripts/switch-traffic.sh", "green"] ∉
      (mainRun execArgs equalFailEnv "20240101000000").1.1 ∧
    Ev.subproc ["docker", "cp", "nginx-equal.conf",
        "recommender-loadbalancer:/tmp/nginx.conf"] ∉
      (mainRun execArgs equalFailEnv "20240101000000").1.1 := by
  refine ⟨by decide, by decide, by decide, by decide, by decide, by decide, by decide,
    by decide⟩

/-- Claim C4 counterexample: a dry-run invocation (default arguments,
`--execute` absent) still executes the `git rev-parse HEAD` subprocess and
still writes files — the provenance file and the release-ledger append —
because `write_provenance` and `append_release_log` are not gated on
dry-run.  The claim of zero external mutating calls and zero file writes in
dry-run mode is therefore false of the code. -/
theorem dry_run_side_effects_cx :
    defaultArgs.execute = false ∧
    Ev.subproc ["git", "rev-parse", "HEAD"] ∈
      (mainRun defaultArgs allPassEnv "20240101000000").1.1 ∧
    Ev.fileWrite "models/20240101000000_provenance.json" ∈
      (mainRun defaultArgs allPassEnv "20240101000000").1.1 ∧
    Ev.fileWrite "reports/release_history.jsonl" ∈
      (mainRun defaultArgs allPassEnv "20240101000000").1.1 := by
  refine ⟨rfl, by decide, by decide, by decide⟩

/-- Claim C4 (amended): in dry-run mode no sleeps, no HTTP probes, no
reverts and no `run_cmd`-dispatched external commands occur, regardless of
configured attempt counts or soak durations — but the provenance step still
runs its `git rev-parse HEAD` subprocess and writes the provenance file,
and the release-ledger append still occurs; these are the only effects. -/
theorem dry_run_effect_envelope (args : Args) (env : MainEnv) (rid : String)
    (hdry : args.execute = false) :
    (∀ d, Ev.sleepSecs d ∉ (mainRun args env rid).1.1) ∧
    (∀ u, Ev.httpGet u ∉ (mainRun args env rid).1.1) ∧
    (∀ c, Ev.revertTraffic c ∉ (mainRun args env rid).1.1) ∧
    (∀ cmd, Ev.subproc cmd ∈ (mainRun args env rid).1.1 →
      cmd = ["git", "rev-parse", "HEAD"]) ∧
    (∀ p, Ev.fileWrite p ∈ (mainRun args env rid).1.1 →
      p = "models/" ++ rid ++ "_provenance.json" ∨ p = args.release_log_path) := by
  unfold mainRun mainTry
  simp only [hdry, Bool.not_false, runCmds_dry, write_provenance,
    perform_staged_shift, if_true, ite_true, append_release_log]
  rcases hp : env.provenance with _ | pf
  · simp [append_release_log]
  · cases pf <;> simp [append_release_log]

/-- Witness for C4 (amended) at the default (dry-run) configuration. -/
theorem dry_run_effect_envelope_instance :
    (∀ d, Ev.sleepSecs d ∉ (mainRun defaultArgs allPassEnv "20240101000000").1.1) ∧
    (∀ u, Ev.httpGet u ∉ (mainRun defaultArgs allPassEnv "20240101000000").1.1) ∧
    (∀ c, Ev.revertTraffic c ∉ (mainRun defaultArgs allPassEnv "20240101000000").1.1) ∧
    (∀ cmd, Ev.subproc cmd ∈ (mainRun defaultArgs allPassEnv "20240101000000").1.1 →
      cmd = ["git", "rev-parse", "HEAD"]) ∧
    (∀ p, Ev.fileWrite p ∈ (mainRun defaultArgs allPassEnv "20240101000000").1.1 →
      p = "models/" ++ "20240101000000" ++ "_provenance.json" ∨
        p = defaultArgs.release_log_path) :=
  dry_run_effect_envelope defaultArgs allPassEnv "20240101000000" rfl
